import Mathlib

/-!
Verification development for the spec-driven project orchestrator web
application.

The definitions below are shallow embeddings of the repository sources: the
Zod validation schemas, the environment validator, the stack-approval route,
the admin user-role route, the artifact-retrieval route and the
security-header middleware are translated from the corresponding TypeScript
files. Components whose implementation files are not part of the sources
(the orchestrator engine, the project CRUD routes and the persistence
primitives; only their tests and callers are) are modelled from the
specification document, and each such definition is marked
`Modelled from the spec:` in its doc comment.
-/

namespace SpecDriven

/-- Phase enumeration: the six fixed stages a project moves through. -/
inductive Phase where
  | ANALYSIS
  | STACK_SELECTION
  | SPEC
  | DEPENDENCIES
  | SOLUTIONING
  | DONE
deriving DecidableEq, Repr

/-- Fixed ordering of the six phases. -/
def phaseOrder : List Phase :=
  [.ANALYSIS, .STACK_SELECTION, .SPEC, .DEPENDENCIES, .SOLUTIONING, .DONE]

/-- Position of a phase in the fixed ordering. -/
def phaseIdx : Phase → Nat
  | .ANALYSIS => 0
  | .STACK_SELECTION => 1
  | .SPEC => 2
  | .DEPENDENCIES => 3
  | .SOLUTIONING => 4
  | .DONE => 5

/-- The one legal successor of each phase; the terminal phase has none. -/
def nextPhase : Phase → Option Phase
  | .ANALYSIS => some .STACK_SELECTION
  | .STACK_SELECTION => some .SPEC
  | .SPEC => some .DEPENDENCIES
  | .DEPENDENCIES => some .SOLUTIONING
  | .SOLUTIONING => some .DONE
  | .DONE => none

/-- Wire name of a phase. -/
def phaseName : Phase → String
  | .ANALYSIS => "ANALYSIS"
  | .STACK_SELECTION => "STACK_SELECTION"
  | .SPEC => "SPEC"
  | .DEPENDENCIES => "DEPENDENCIES"
  | .SOLUTIONING => "SOLUTIONING"
  | .DONE => "DONE"

/-- The six defined phase names. -/
def phaseNames : List String :=
  ["ANALYSIS", "STACK_SELECTION", "SPEC", "DEPENDENCIES", "SOLUTIONING", "DONE"]

/-- Parse a phase name; any string outside the six defined names is rejected. -/
def parsePhase (s : String) : Option Phase :=
  if s = "ANALYSIS" then some .ANALYSIS
  else if s = "STACK_SELECTION" then some .STACK_SELECTION
  else if s = "SPEC" then some .SPEC
  else if s = "DEPENDENCIES" then some .DEPENDENCIES
  else if s = "SOLUTIONING" then some .SOLUTIONING
  else if s = "DONE" then some .DONE
  else none

/-- Artifact record: a generated document attached to a (phase, name) pair,
with an integer version counter and textual content. -/
structure Artifact where
  phase : String
  name : String
  version : Nat
  content : String
deriving DecidableEq, Repr

/-- Largest version already stored for a (phase, name) pair, 0 when none. -/
def maxVersion (store : List Artifact) (phase name : String) : Nat :=
  (store.filter (fun a => a.phase == phase && a.name == name)).foldl
    (fun m a => max m a.version) 0

/-- Modelled from the spec: the artifact persistence primitive
(`saveArtifact` of the database service, whose implementation file is not in
the sources) versions each (project, phase, name) triple by an integer
counter; a new write appends the next version and prior versions are neither
deleted nor replaced. -/
def saveArtifact (store : List Artifact) (phase name content : String) :
    List Artifact :=
  store ++ [⟨phase, name, maxVersion store phase name + 1, content⟩]

/-- Project orchestration state: current phase, completed phases, approval
flags, and the artifact store of the project. -/
structure ProjState where
  current_phase : Phase
  phases_completed : List Phase
  stack_approved : Bool
  dependencies_approved : Bool
  artifacts : List Artifact
deriving Repr

/-- Modelled from the spec: the static phase specification enumerates each
phase's required artifacts (document names referenced by the sources). -/
def requiredArtifactsFor : Phase → List String
  | .ANALYSIS => ["project-brief.md", "personas.md", "constitution.md"]
  | .STACK_SELECTION => ["stack-decision.md", "stack-rationale.md"]
  | .SPEC => ["spec.md"]
  | .DEPENDENCIES => ["dependencies.md"]
  | .SOLUTIONING => ["solutioning.md"]
  | .DONE => []

/-- Modelled from the spec: the executor list registered for each phase;
within STACK_SELECTION the PM output feeds the Architect step. -/
def executorsFor : Phase → List String
  | .ANALYSIS => ["analyst"]
  | .STACK_SELECTION => ["pm", "architect"]
  | .SPEC => ["architect"]
  | .DEPENDENCIES => ["dependencies"]
  | .SOLUTIONING => ["solutioning"]
  | .DONE => []

/-- Check whether an artifact with the given coordinates exists. -/
def hasArtifact (s : ProjState) (phase nm : String) : Bool :=
  s.artifacts.any (fun a => a.phase == phase && a.name == nm)

/-- Modelled from the spec: approvals required before leaving a phase
(stack approval for STACK_SELECTION, dependency approval for DEPENDENCIES). -/
def approvalsOkFor (p : Phase) (s : ProjState) : Bool :=
  match p with
  | .STACK_SELECTION => s.stack_approved
  | .DEPENDENCIES => s.dependencies_approved
  | _ => true

/-- Modelled from the spec: the phase-advance trigger is that all required
artifacts for the current phase exist and are approved where required. -/
def advanceReady (s : ProjState) : Bool :=
  (requiredArtifactsFor s.current_phase).all
      (fun n => hasArtifact s (phaseName s.current_phase) n)
    && approvalsOkFor s.current_phase s

/-- Modelled from the spec: running the executors of a phase persists that
phase's required artifacts (content abstracted; the claims only concern
which artifacts exist). -/
def runExecutors (s : ProjState) (p : Phase) : ProjState :=
  let store := (requiredArtifactsFor p).foldl
    (fun store n => saveArtifact store (phaseName p) n ("generated " ++ n))
    s.artifacts
  { s with artifacts := store }

/-- Operations a client can perform against a project. -/
inductive Op where
  | executePhase (phName : String)
  | approveStack
  | approveDependencies
  | advancePhase
deriving Repr

/-- Modelled from the spec: one step of the orchestrator state machine.
Executing a phase runs its executors only when the name parses and matches
the current phase; approvals set the corresponding flag; the phase advances
to its one legal successor only when the trigger condition holds. -/
def step (s : ProjState) : Op → ProjState
  | .executePhase nm =>
    match parsePhase nm with
    | none => s
    | some p => if p = s.current_phase then runExecutors s p else s
  | .approveStack =>
    { s with stack_approved := true,
             artifacts :=
               saveArtifact
                 (saveArtifact s.artifacts "STACK_SELECTION"
                   "stack-decision.md" "decision")
                 "STACK_SELECTION" "stack-rationale.md" "rationale" }
  | .approveDependencies => { s with dependencies_approved := true }
  | .advancePhase =>
    if advanceReady s then
      match nextPhase s.current_phase with
      | some q =>
        { s with current_phase := q,
                 phases_completed := s.phases_completed ++ [s.current_phase] }
      | none => s
    else s

/-- Apply a sequence of operations from a starting state. -/
def applyOps (s : ProjState) : List Op → ProjState
  | [] => s
  | op :: ops => applyOps (step s op) ops

/-- Modelled from the spec: a freshly created project starts in ANALYSIS
with no completed phases, no approvals and no artifacts. -/
def newProject : ProjState :=
  { current_phase := .ANALYSIS
    phases_completed := []
    stack_approved := false
    dependencies_approved := false
    artifacts := [] }

theorem nextPhase_idx_lt (p q : Phase) (h : nextPhase p = some q) :
    phaseIdx p < phaseIdx q := by
  cases p <;> simp [nextPhase] at h <;> simp [← h, phaseIdx]

theorem step_phase_mono (s : ProjState) (op : Op) :
    phaseIdx s.current_phase ≤ phaseIdx (step s op).current_phase := by
  cases op with
  | executePhase nm =>
    simp only [step]
    cases parsePhase nm with
    | none => exact Nat.le_refl _
    | some p =>
      by_cases h : p = s.current_phase
      · simp [h, runExecutors]
      · simp [h]
  | approveStack => simp [step]
  | approveDependencies => simp [step]
  | advancePhase =>
    simp only [step]
    by_cases h : advanceReady s
    · simp only [h, if_true]
      cases hq : nextPhase s.current_phase with
      | none => exact Nat.le_refl _
      | some q => exact Nat.le_of_lt (nextPhase_idx_lt _ _ hq)
    · simp [h]

/-- C1: for every project state and every sequence of operations, the
current phase is always one of the six defined enum values and its index in
the fixed ordering never decreases; a freshly created project starts in
ANALYSIS. -/
theorem current_phase_enum_and_monotone (s : ProjState) (ops : List Op) :
    (applyOps s ops).current_phase ∈ phaseOrder ∧
    phaseIdx s.current_phase ≤ phaseIdx (applyOps s ops).current_phase ∧
    newProject.current_phase = Phase.ANALYSIS := by
  refine ⟨?_, ?_, rfl⟩
  · cases (applyOps s ops).current_phase <;> simp [phaseOrder]
  · induction ops generalizing s with
    | nil => simp [applyOps]
    | cons op ops ih =>
      calc phaseIdx s.current_phase
          ≤ phaseIdx (step s op).current_phase := step_phase_mono s op
        _ ≤ phaseIdx (applyOps (step s op) ops).current_phase := ih (step s op)
        _ = phaseIdx (applyOps s (op :: ops)).current_phase := by
              simp [applyOps]

/-- Outcome of a phase-execution request: HTTP status, success flag, the
executors that were invoked, and the resulting project state. -/
structure ExecOutcome where
  status : Nat
  success : Bool
  executorsInvoked : List String
  state : ProjState
deriving Repr

/-- Modelled from the spec: the phase-execution trigger route. An unknown
phase name is a fatal input error, rejected before any executor runs, with
no generation side effect and no change to project state; a known phase
runs that phase's executors. -/
def executePhaseRoute (nm : String) (s : ProjState) : ExecOutcome :=
  match parsePhase nm with
  | none => ⟨400, false, [], s⟩
  | some p => ⟨200, true, executorsFor p, runExecutors s p⟩

/-- C2: a phase-execution request whose phase name is not one of the six
defined phases is rejected as a fatal input error: status 400, no executor
invoked, and the project state (artifacts included) unchanged. -/
theorem unknown_phase_rejected (nm : String) (s : ProjState)
    (h : nm ∉ phaseNames) :
    (executePhaseRoute nm s).status = 400 ∧
    (executePhaseRoute nm s).success = false ∧
    (executePhaseRoute nm s).executorsInvoked = [] ∧
    (executePhaseRoute nm s).state = s := by
  have hp : parsePhase nm = none := by
    simp only [phaseNames, List.mem_cons, List.not_mem_nil, or_false,
      not_or] at h
    obtain ⟨h1, h2, h3, h4, h5, h6⟩ := h
    simp [parsePhase, h1, h2, h3, h4, h5, h6]
  simp [executePhaseRoute, hp]

/-- Witness for C2 at the concrete unknown phase name BOGUS. -/
theorem unknown_phase_rejected_witness :
    "BOGUS" ∉ phaseNames ∧
    ((executePhaseRoute "BOGUS" newProject).status = 400 ∧
     (executePhaseRoute "BOGUS" newProject).success = false ∧
     (executePhaseRoute "BOGUS" newProject).executorsInvoked = [] ∧
     (executePhaseRoute "BOGUS" newProject).state = newProject) :=
  ⟨by decide, unknown_phase_rejected "BOGUS" newProject (by decide)⟩

/-- Substring containment test on strings, via infix containment of the
underlying character lists. -/
def containsSubstr (s pat : String) : Bool :=
  decide (pat.toList <:+: s.toList)

/-- JSON value of a string-typed field in a request body: absent, JSON null,
or a string. -/
inductive NameField where
  | missing
  | null
  | str (s : String)
deriving DecidableEq, Repr

/-- Uniform JSON response envelope used by the route layer. -/
structure ApiResponse where
  status : Nat
  success : Bool
  error : String
deriving DecidableEq, Repr

/-- Name validation of CreateProjectSchema (schemas source file): a string
of length at least 1 (message Project name is required) and at most 100
(message Project name must not exceed 100 characters), trimmed afterwards. -/
def createProjectSchemaName (s : String) : Except String String :=
  if s.length < 1 then .error "Project name is required"
  else if s.length > 100 then
    .error "Project name must not exceed 100 characters"
  else .ok s.trim

/-- Modelled from the spec: the POST /projects handler file is not among the
sources (only its tests and the schema are). Per the spec (submitting an
empty or null project name always yields 400 with an error containing
"required") and the route tests (a body without a name is rejected with
"Project name is required"), the handler rejects a missing or null name
with the schema's required message, otherwise applies
createProjectSchemaName; a valid request creates the project with 201. -/
def createProjectRoute (nameField : NameField) : ApiResponse :=
  match nameField with
  | .missing => ⟨400, false, "Project name is required"⟩
  | .null => ⟨400, false, "Project name is required"⟩
  | .str s =>
    match createProjectSchemaName s with
    | .error msg => ⟨400, false, msg⟩
    | .ok _ => ⟨201, true, ""⟩

/-- C3: a POST /projects request whose name field is the empty string or
JSON null yields status 400 with an error message containing the substring
"required". -/
theorem empty_or_null_name_rejected (f : NameField)
    (h : f = NameField.null ∨ f = NameField.str "") :
    (createProjectRoute f).status = 400 ∧
    containsSubstr (createProjectRoute f).error "required" = true := by
  rcases h with h | h <;> subst h <;> exact ⟨rfl, by decide⟩

/-- Witness for C3 at both the null and the empty-string inputs. -/
theorem empty_or_null_name_rejected_witness :
    ((NameField.null = NameField.null ∨ NameField.null = NameField.str "") ∧
      (createProjectRoute NameField.null).status = 400 ∧
      containsSubstr (createProjectRoute NameField.null).error "required"
        = true) ∧
    ((NameField.str "" = NameField.null ∨
        NameField.str "" = NameField.str "") ∧
      (createProjectRoute (NameField.str "")).status = 400 ∧
      containsSubstr (createProjectRoute (NameField.str "")).error "required"
        = true) :=
  ⟨⟨Or.inl rfl, empty_or_null_name_rejected NameField.null (Or.inl rfl)⟩,
   ⟨Or.inr rfl, empty_or_null_name_rejected (NameField.str "") (Or.inr rfl)⟩⟩

/-- Project metadata record as stored by the persistence layer. -/
structure ProjectMeta where
  slug : String
  name : String
  current_phase : Phase
  stack_choice : Option String
  stack_approved : Bool
  dependencies_approved : Bool
  created_by_id : String
deriving DecidableEq, Repr

/-- Look a project up by slug in the metadata store. -/
def lookupProject (store : List ProjectMeta) (slug : String) :
    Option ProjectMeta :=
  store.find? (fun m => m.slug == slug)

/-- Modelled from the spec: the GET /projects/:slug handler file is not
among the sources (only its tests are); an unknown slug yields 404 with a
success-false envelope, an existing project 200. -/
def getProjectRoute (store : List ProjectMeta) (slug : String) :
    ApiResponse :=
  match lookupProject store slug with
  | none => ⟨404, false, "Project not found"⟩
  | some _ => ⟨200, true, ""⟩

/-- Modelled from the spec: the PUT /projects/:slug handler file is not
among the sources (only its tests are); an unknown slug yields 404 with a
success-false envelope and leaves the store unchanged, otherwise the
project is updated. -/
def putProjectRoute (store : List ProjectMeta) (slug newName : String) :
    ApiResponse × List ProjectMeta :=
  match lookupProject store slug with
  | none => (⟨404, false, "Project not found"⟩, store)
  | some _ =>
    (⟨200, true, ""⟩,
      store.map (fun x => if x.slug == slug then { x with name := newName }
        else x))

/-- Modelled from the spec: the DELETE /projects/:slug handler file is not
among the sources (only its tests are); an unknown slug yields 404 with a
success-false envelope and leaves the store unchanged, otherwise the
project is removed. -/
def deleteProjectRoute (store : List ProjectMeta) (slug : String) :
    ApiResponse × List ProjectMeta :=
  match lookupProject store slug with
  | none => (⟨404, false, "Project not found"⟩, store)
  | some _ => (⟨200, true, ""⟩, store.filter (fun x => x.slug != slug))

/-- C4: for a slug that does not identify an existing project, GET, PUT and
DELETE on /projects/:slug each return status 404 with a success-false
body. -/
theorem nonexistent_slug_404 (store : List ProjectMeta) (slug nm : String)
    (h : lookupProject store slug = none) :
    getProjectRoute store slug = ⟨404, false, "Project not found"⟩ ∧
    (putProjectRoute store slug nm).1 = ⟨404, false, "Project not found"⟩ ∧
    (deleteProjectRoute store slug).1
      = ⟨404, false, "Project not found"⟩ := by
  simp [getProjectRoute, putProjectRoute, deleteProjectRoute, h]

/-- Witness for C4 on the empty store. -/
theorem nonexistent_slug_404_witness :
    lookupProject [] "nonexistent" = none ∧
    (getProjectRoute [] "nonexistent" = ⟨404, false, "Project not found"⟩ ∧
     (putProjectRoute [] "nonexistent" "Updated").1
       = ⟨404, false, "Project not found"⟩ ∧
     (deleteProjectRoute [] "nonexistent").1
       = ⟨404, false, "Project not found"⟩) :=
  ⟨rfl, nonexistent_slug_404 [] "nonexistent" "Updated" rfl⟩

/-- Content type inferred from the artifact file extension (artifact route
source file): .json, then .md, else plain text. -/
def contentTypeFor (nm : String) : String :=
  if nm.endsWith ".json" then "application/json"
  else if nm.endsWith ".md" then "text/markdown"
  else "text/plain"

/-- Raw HTTP response of the artifact retrieval route. -/
structure RawResponse where
  status : Nat
  contentType : String
  body : String
deriving DecidableEq, Repr

/-- Artifact retrieval route GET /projects/:slug/artifacts/:phase/:name
(route source file): 404 JSON envelopes when the project metadata or the
stored artifact is missing, otherwise 200 with the raw stored content and
the content type inferred from the name's extension. -/
def getArtifactRoute (metadata : Option ProjectMeta)
    (stored : Option String) (nm : String) : RawResponse :=
  match metadata with
  | none => ⟨404, "application/json", "Project not found"⟩
  | some _ =>
    match stored with
    | none => ⟨404, "application/json", "Artifact not found"⟩
    | some content => ⟨200, contentTypeFor nm, content⟩

/-- C6: every successful artifact retrieval returns the raw stored content
with status 200 and a content type determined solely by the name's
extension: .json gives application/json, .md gives text/markdown, anything
else text/plain. -/
theorem artifact_content_type (m : ProjectMeta)
    (metadata : Option ProjectMeta) (stored : Option String)
    (nm content : String)
    (hm : metadata = some m) (hs : stored = some content) :
    getArtifactRoute metadata stored nm
      = ⟨200, contentTypeFor nm, content⟩ ∧
    (nm.endsWith ".json" = true → contentTypeFor nm = "application/json") ∧
    (nm.endsWith ".json" = false → nm.endsWith ".md" = true →
      contentTypeFor nm = "text/markdown") ∧
    (nm.endsWith ".json" = false → nm.endsWith ".md" = false →
      contentTypeFor nm = "text/plain") := by
  subst hm hs
  refine ⟨rfl, ?_, ?_, ?_⟩
  · intro h1
    simp [contentTypeFor, h1]
  · intro h1 h2
    simp [contentTypeFor, h1, h2]
  · intro h1 h2
    simp [contentTypeFor, h1, h2]

/-- Witness for C6 on a concrete project, artifact and markdown name. -/
theorem artifact_content_type_witness :
    (some (⟨"test-slug", "Test", Phase.ANALYSIS, none, false, false,
        "user-1"⟩ : ProjectMeta)
      = some ⟨"test-slug", "Test", Phase.ANALYSIS, none, false, false,
        "user-1"⟩) ∧
    (some "# Brief" = some "# Brief") ∧
    (getArtifactRoute
        (some ⟨"test-slug", "Test", Phase.ANALYSIS, none, false, false,
          "user-1"⟩)
        (some "# Brief") "project-brief.md"
      = ⟨200, contentTypeFor "project-brief.md", "# Brief"⟩ ∧
     ("project-brief.md".endsWith ".json" = true →
        contentTypeFor "project-brief.md" = "application/json") ∧
     ("project-brief.md".endsWith ".json" = false →
        "project-brief.md".endsWith ".md" = true →
        contentTypeFor "project-brief.md" = "text/markdown") ∧
     ("project-brief.md".endsWith ".json" = false →
        "project-brief.md".endsWith ".md" = false →
        contentTypeFor "project-brief.md" = "text/plain")) :=
  ⟨rfl, rfl,
    artifact_content_type
      ⟨"test-slug", "Test", Phase.ANALYSIS, none, false, false, "user-1"⟩
      _ _ "project-brief.md" "# Brief" rfl rfl⟩

/-- Raw process environment: each variable either set or absent. Optional
variables of the schema that no claim touches (Sentry, Redis, object
storage, OAuth, SMTP, logging) are omitted: they are validated only when
present and do not affect the validation of the variables below. -/
structure RawEnv where
  DATABASE_URL : Option String
  BETTER_AUTH_SECRET : Option String
  AUTH_SECRET : Option String
  GEMINI_API_KEY : Option String
  NEXT_PUBLIC_APP_URL : Option String
  AUTH_BASE_URL : Option String
  NODE_ENV : Option String
deriving DecidableEq, Repr

/-- Split a character list at its first colon, returning the part before
and the part after. -/
def schemeSplit : List Char → Option (List Char × List Char)
  | [] => none
  | ':' :: rest => some ([], rest)
  | c :: rest => (schemeSplit rest).map (fun p => (c :: p.1, p.2))

/-- Characters allowed after the first character of a URL scheme. -/
def isSchemeChar (c : Char) : Bool :=
  c.isAlpha || c.isDigit || c == '+' || c == '-' || c == '.'

/-- Approximation of the Zod url() check of the env source file, which
succeeds exactly when the JavaScript URL constructor accepts the string: a
scheme starting with a letter and continuing with letters, digits, plus,
minus or dot, followed by a colon; the remainder is unconstrained, so
scheme-only URLs such as mailto:x are accepted. Strings the URL
constructor rejects for reasons beyond the scheme are over-accepted here;
the model therefore never reports a URL as malformed that the program
accepts. -/
def isUrl (s : String) : Bool :=
  match schemeSplit s.toList with
  | some (scheme, _) =>
    match scheme with
    | [] => false
    | c :: cs => c.isAlpha && cs.all isSchemeChar
  | none => false

/-- Character-list version of String.startsWith, used so that concrete
environments evaluate inside the kernel. -/
def strStartsWith (s pre : String) : Bool :=
  pre.toList.isPrefixOf s.toList

/-- Issues raised by the DATABASE_URL validators (env source file):
required; must be a valid URL; must be a PostgreSQL connection string. -/
def databaseUrlIssues (e : RawEnv) : List String :=
  match e.DATABASE_URL with
  | none => ["DATABASE_URL: Required"]
  | some s =>
    if isUrl s then
      if strStartsWith s "postgres" || strStartsWith s "postgresql" then []
      else ["DATABASE_URL must be a PostgreSQL connection string"]
    else ["DATABASE_URL must be a valid URL"]

/-- Issues raised by an auth-secret validator (env source file): the
variable is optional, but when present must be at least 32 characters. -/
def authSecretIssues (label : String) (v : Option String) : List String :=
  match v with
  | none => []
  | some s =>
    if s.length ≥ 32 then [] else [label ++ " must be at least 32 characters"]

/-- Issues raised by the GEMINI_API_KEY validators (env source file):
required, with a minimum length of 1. -/
def geminiIssues (e : RawEnv) : List String :=
  match e.GEMINI_API_KEY with
  | none => ["GEMINI_API_KEY: Required"]
  | some s =>
    if s.length ≥ 1 then [] else ["GEMINI_API_KEY is required for LLM functionality"]

/-- Issues raised by the NEXT_PUBLIC_APP_URL validators (env source file):
required and a valid URL. -/
def appUrlIssues (e : RawEnv) : List String :=
  match e.NEXT_PUBLIC_APP_URL with
  | none => ["NEXT_PUBLIC_APP_URL: Required"]
  | some s => if isUrl s then [] else ["NEXT_PUBLIC_APP_URL must be a valid URL"]

/-- Issues raised by the AUTH_BASE_URL validators (env source file):
optional, but a valid URL when present. -/
def authBaseUrlIssues (e : RawEnv) : List String :=
  match e.AUTH_BASE_URL with
  | none => []
  | some s => if isUrl s then [] else ["AUTH_BASE_URL must be a valid URL"]

/-- Issues raised by the NODE_ENV validator (env source file): optional
with default development, and otherwise one of the three enum values. -/
def nodeEnvIssues (e : RawEnv) : List String :=
  match e.NODE_ENV with
  | none => []
  | some s =>
    if s = "development" ∨ s = "production" ∨ s = "test" then []
    else ["NODE_ENV: invalid enum value"]

/-- All issues collected by envSchema.parse over the modelled variables
(env source file; Zod collects every issue). -/
def envIssues (e : RawEnv) : List String :=
  databaseUrlIssues e
    ++ authSecretIssues "BETTER_AUTH_SECRET" e.BETTER_AUTH_SECRET
    ++ authSecretIssues "AUTH_SECRET" e.AUTH_SECRET
    ++ geminiIssues e
    ++ appUrlIssues e
    ++ authBaseUrlIssues e
    ++ nodeEnvIssues e

/-- Result of the eager module-level validation in the env source file:
either the process exits with a code, or it continues running. -/
inductive StartupResult where
  | exited (code : Nat)
  | running
deriving DecidableEq, Repr

/-- Eager startup validation (env source file): envSchema.parse runs at
module load; any issue prints the formatted errors and calls process.exit
with code 1, otherwise the process continues. -/
def startupValidate (e : RawEnv) : StartupResult :=
  match envIssues e with
  | [] => .running
  | _ :: _ => .exited 1

/-- C7 counterexample: an environment with no auth secret at all, but every
other required variable valid, passes the eager startup validation and the
process does not exit, contradicting the claim that a missing auth secret
makes the process exit non-zero before serving. -/
theorem missing_auth_secret_starts_counterexample :
    (RawEnv.mk (some "postgresql://db.example.com/app") none none
        (some "test-key") (some "http://localhost:3000") none
        (some "development")).BETTER_AUTH_SECRET = none ∧
    (RawEnv.mk (some "postgresql://db.example.com/app") none none
        (some "test-key") (some "http://localhost:3000") none
        (some "development")).AUTH_SECRET = none ∧
    startupValidate
      (RawEnv.mk (some "postgresql://db.example.com/app") none none
        (some "test-key") (some "http://localhost:3000") none
        (some "development"))
      = StartupResult.running := by
  refine ⟨rfl, rfl, ?_⟩
  decide

/-- C7 (amended): the eager startup validation exits with code 1 whenever
the database connection string is missing or malformed (not a URL, or a
URL that is not a PostgreSQL connection string), the generative-API key is
missing or empty, the public app URL is missing or malformed, or a
provided auth secret (either variable) is shorter than 32 characters; a
missing auth secret alone does not trigger the exit (see the
counterexample). -/
theorem env_required_vars_exit (e : RawEnv)
    (h : e.DATABASE_URL = none ∨
         (∃ s, e.DATABASE_URL = some s ∧ isUrl s = false) ∨
         (∃ s, e.DATABASE_URL = some s ∧ isUrl s = true ∧
           (strStartsWith s "postgres" || strStartsWith s "postgresql")
             = false) ∨
         e.GEMINI_API_KEY = none ∨
         e.GEMINI_API_KEY = some "" ∨
         e.NEXT_PUBLIC_APP_URL = none ∨
         (∃ s, e.NEXT_PUBLIC_APP_URL = some s ∧ isUrl s = false) ∨
         (∃ s, e.BETTER_AUTH_SECRET = some s ∧ s.length < 32) ∨
         (∃ s, e.AUTH_SECRET = some s ∧ s.length < 32)) :
    startupValidate e = StartupResult.exited 1 := by
  have hne : envIssues e ≠ [] := by
    rcases h with h | ⟨s, hs, hu⟩ | ⟨s, hs, hu, hp⟩ | h | h | h
      | ⟨s, hs, hu⟩ | ⟨s, hs, hl⟩ | ⟨s, hs, hl⟩
    · exact List.ne_nil_of_mem
        (show "DATABASE_URL: Required" ∈ envIssues e by
          simp [envIssues, databaseUrlIssues, h])
    · exact List.ne_nil_of_mem
        (show "DATABASE_URL must be a valid URL" ∈ envIssues e by
          simp [envIssues, databaseUrlIssues, hs, hu])
    · exact List.ne_nil_of_mem
        (show "DATABASE_URL must be a PostgreSQL connection string"
            ∈ envIssues e by
          simp [envIssues, databaseUrlIssues, hs, hu, hp])
    · exact List.ne_nil_of_mem
        (show "GEMINI_API_KEY: Required" ∈ envIssues e by
          simp [envIssues, geminiIssues, h])
    · exact List.ne_nil_of_mem
        (show "GEMINI_API_KEY is required for LLM functionality"
            ∈ envIssues e by
          simp [envIssues, geminiIssues, h])
    · exact List.ne_nil_of_mem
        (show "NEXT_PUBLIC_APP_URL: Required" ∈ envIssues e by
          simp [envIssues, appUrlIssues, h])
    · exact List.ne_nil_of_mem
        (show "NEXT_PUBLIC_APP_URL must be a valid URL" ∈ envIssues e by
          simp [envIssues, appUrlIssues, hs, hu])
    · have hnot : ¬ (s.length ≥ 32) := Nat.not_le_of_lt hl
      exact List.ne_nil_of_mem
        (show "BETTER_AUTH_SECRET must be at least 32 characters"
            ∈ envIssues e by
          simp [envIssues, authSecretIssues, hs, hnot])
    · have hnot : ¬ (s.length ≥ 32) := Nat.not_le_of_lt hl
      exact List.ne_nil_of_mem
        (show "AUTH_SECRET must be at least 32 characters"
            ∈ envIssues e by
          simp [envIssues, authSecretIssues, hs, hnot])
  cases hi : envIssues e with
  | nil => exact absurd hi hne
  | cons a t => simp [startupValidate, hi]

/-- Witness for C7 at an environment missing its database URL. -/
theorem env_required_vars_exit_witness :
    ((RawEnv.mk none none none (some "k") (some "http://localhost:3000")
        none none).DATABASE_URL = none ∨
      (∃ s, (RawEnv.mk none none none (some "k")
          (some "http://localhost:3000") none none).DATABASE_URL = some s ∧
        isUrl s = false) ∨
      (∃ s, (RawEnv.mk none none none (some "k")
          (some "http://localhost:3000") none none).DATABASE_URL = some s ∧
        isUrl s = true ∧
        (strStartsWith s "postgres" || strStartsWith s "postgresql")
          = false) ∨
      (RawEnv.mk none none none (some "k") (some "http://localhost:3000")
        none none).GEMINI_API_KEY = none ∨
      (RawEnv.mk none none none (some "k") (some "http://localhost:3000")
        none none).GEMINI_API_KEY = some "" ∨
      (RawEnv.mk none none none (some "k") (some "http://localhost:3000")
        none none).NEXT_PUBLIC_APP_URL = none ∨
      (∃ s, (RawEnv.mk none none none (some "k")
          (some "http://localhost:3000") none none).NEXT_PUBLIC_APP_URL
          = some s ∧ isUrl s = false) ∨
      (∃ s, (RawEnv.mk none none none (some "k")
          (some "http://localhost:3000") none none).BETTER_AUTH_SECRET
          = some s ∧ s.length < 32) ∨
      (∃ s, (RawEnv.mk none none none (some "k")
          (some "http://localhost:3000") none none).AUTH_SECRET
          = some s ∧ s.length < 32)) ∧
    startupValidate
        (RawEnv.mk none none none (some "k") (some "http://localhost:3000")
          none none)
      = StartupResult.exited 1 :=
  ⟨Or.inl rfl,
    env_required_vars_exit
      (RawEnv.mk none none none (some "k") (some "http://localhost:3000")
        none none)
      (Or.inl rfl)⟩

/-- Request body of a stack approval (ApproveStackSchema input shape);
absent fields are none. -/
structure ApproveStackBody where
  stack_choice : Option String
  reasoning : Option String
  platform : Option String
deriving DecidableEq, Repr

/-- ApproveStackSchema (schemas source file): stack_choice is a required
string with minimum length 1; reasoning is optional free text of at most
2000 characters, defaulting to empty; platform is an optional string. -/
def approveStackValid (b : ApproveStackBody) : Bool :=
  (match b.stack_choice with
   | some s => decide (1 ≤ s.length)
   | none => false) &&
  (match b.reasoning with
   | some r => decide (r.length ≤ 2000)
   | none => true)

/-- Package entry of DependencyPackageSchema (schemas source file). -/
structure DependencyPackageBody where
  name : Option String
  version : Option String
  size : Option String
  category : Option String
deriving DecidableEq, Repr

/-- DependencyPackageSchema (schemas source file): name and version are
required strings, size optional, category a required member of the six
category values. -/
def dependencyPackageValid (p : DependencyPackageBody) : Bool :=
  p.name.isSome && p.version.isSome &&
  (match p.category with
   | some c => decide (c ∈ ["core", "ui", "data", "auth", "utils", "dev"])
   | none => false)

/-- Preset option object of DependencyOptionSchema (schemas source file);
absent fields are none. -/
structure DependencyOptionBody where
  id : Option String
  title : Option String
  summary : Option String
  frontend : Option String
  backend : Option String
  database : Option String
  deployment : Option String
  packages : Option (List DependencyPackageBody)
  highlights : Option (List String)
deriving DecidableEq, Repr

/-- DependencyOptionSchema (schemas source file): every field is required;
packages must each satisfy DependencyPackageSchema. -/
def dependencyOptionValid (o : DependencyOptionBody) : Bool :=
  o.id.isSome && o.title.isSome && o.summary.isSome && o.frontend.isSome &&
  o.backend.isSome && o.database.isSome && o.deployment.isSome &&
  (match o.packages with
   | some ps => ps.all dependencyPackageValid
   | none => false) &&
  o.highlights.isSome

/-- Custom stack object of CustomStackSchema (schemas source file); absent
fields are none. -/
structure CustomStackBody where
  frontend : Option String
  backend : Option String
  database : Option String
  deployment : Option String
  dependencies : Option (List String)
  requests : Option String
deriving DecidableEq, Repr

/-- CustomStackSchema (schemas source file): frontend, backend, database,
deployment and dependencies are required; requests is optional. -/
def customStackValid (c : CustomStackBody) : Bool :=
  c.frontend.isSome && c.backend.isSome && c.database.isSome &&
  c.deployment.isSome && c.dependencies.isSome

/-- Request body of a dependencies approval (ApproveDependenciesSchema
input shape); absent fields are none. -/
structure ApproveDependenciesBody where
  notes : Option String
  mode : Option String
  architecture : Option String
  option : Option DependencyOptionBody
  customStack : Option CustomStackBody
deriving DecidableEq, Repr

/-- ApproveDependenciesSchema (schemas source file): notes is optional free
text of at most 2000 characters; mode, when present, is preset or custom;
architecture, the preset option and the custom stack are all optional, each
validated only when present. -/
def approveDependenciesValid (b : ApproveDependenciesBody) : Bool :=
  (match b.notes with
   | some n => decide (n.length ≤ 2000)
   | none => true) &&
  (match b.mode with
   | some m => m == "preset" || m == "custom"
   | none => true) &&
  (match b.option with
   | some o => dependencyOptionValid o
   | none => true) &&
  (match b.customStack with
   | some c => customStackValid c
   | none => true)

/-- C8 counterexample: the empty dependencies-approval submission, which
contains no frontend, backend, database or deployment choice anywhere,
passes ApproveDependenciesSchema, and a stack-approval submission
consisting of only a stack choice likewise passes ApproveStackSchema;
neither submission is rejected as invalid. -/
theorem approval_schema_counterexample :
    approveDependenciesValid ⟨none, none, none, none, none⟩ = true ∧
    approveStackValid ⟨some "nextjs_fullstack", none, none⟩ = true := by
  exact ⟨rfl, by decide⟩

/-- C8 (amended): the frontend, backend, database and deployment choices
are required only inside a provided preset option or custom-stack object: a
submission whose provided object omits any of the four is rejected;
free-text fields are bounded at 2000 characters; a stack approval requires
a nonempty stack choice. A dependencies-approval submission omitting the
option and custom-stack objects entirely is accepted. -/
theorem approval_schema_required_fields
    (b : ApproveDependenciesBody) (c : CustomStackBody)
    (o : DependencyOptionBody) (sb : ApproveStackBody) :
    (b.customStack = some c →
      (c.frontend = none ∨ c.backend = none ∨ c.database = none ∨
        c.deployment = none) →
      approveDependenciesValid b = false) ∧
    (b.option = some o →
      (o.frontend = none ∨ o.backend = none ∨ o.database = none ∨
        o.deployment = none) →
      approveDependenciesValid b = false) ∧
    (∀ n, b.notes = some n → 2000 < n.length →
      approveDependenciesValid b = false) ∧
    (sb.stack_choice = none → approveStackValid sb = false) ∧
    (∀ r, sb.reasoning = some r → 2000 < r.length →
      approveStackValid sb = false) := by
  refine ⟨?_, ?_, ?_, ?_, ?_⟩
  · intro hc h
    rcases h with h | h | h | h <;>
      simp [approveDependenciesValid, hc, customStackValid, h]
  · intro ho h
    rcases h with h | h | h | h <;>
      simp [approveDependenciesValid, ho, dependencyOptionValid, h]
  · intro n hn hl
    have hnot : ¬ (n.length ≤ 2000) := Nat.not_le_of_lt hl
    simp [approveDependenciesValid, hn, hnot]
  · intro hs
    simp [approveStackValid, hs]
  · intro r hr hl
    have hnot : ¬ (r.length ≤ 2000) := Nat.not_le_of_lt hl
    simp [approveStackValid, hr, hnot]

/-- Dependencies-approval body whose custom stack omits the frontend
choice, used by the schema witness. -/
def depsBodyMissingFrontend : ApproveDependenciesBody :=
  ⟨none, some "custom", none, none,
    some ⟨none, some "node", some "postgres", some "vercel", some [], none⟩⟩

/-- Custom-stack object of depsBodyMissingFrontend. -/
def customStackMissingFrontend : CustomStackBody :=
  ⟨none, some "node", some "postgres", some "vercel", some [], none⟩

/-- Preset option object with every field absent, used by the schema
witness. -/
def emptyOptionBody : DependencyOptionBody :=
  ⟨none, none, none, none, none, none, none, none, none⟩

/-- Stack-approval body with no stack choice, used by the schema witness. -/
def stackBodyNoChoice : ApproveStackBody := ⟨none, none, none⟩

/-- Witness for the amended C8 theorem: a custom stack missing its frontend
choice is rejected, and a stack approval without a stack choice is
rejected. -/
theorem approval_schema_required_fields_witness :
    approveDependenciesValid depsBodyMissingFrontend = false ∧
    approveStackValid stackBodyNoChoice = false :=
  ⟨(approval_schema_required_fields depsBodyMissingFrontend
        customStackMissingFrontend emptyOptionBody stackBodyNoChoice).1
      rfl (Or.inl rfl),
    (approval_schema_required_fields depsBodyMissingFrontend
        customStackMissingFrontend emptyOptionBody
        stackBodyNoChoice).2.2.2.1 rfl⟩

/-- Stack-decision document content in template mode (approve-stack route
source file), parameterized by the request-time date and timestamp. The
custom-mode branch is driven by schema fields that are not present in the
schemas source file and is not exercised by this model. -/
def generateStackDecisionContent (stackChoice reasoning date timestamp :
    String) : String :=
  "---\n" ++
  "title: \"Technology Stack Decision\"\n" ++
  "owner: \"architect\"\n" ++
  "version: \"1\"\n" ++
  "date: \"" ++ date ++ "\"\n" ++
  "status: \"approved\"\n" ++
  "mode: \"template\"\n" ++
  "template: \"" ++ stackChoice ++ "\"\n" ++
  "---\n\n" ++
  "# Technology Stack Decision\n\n" ++
  "## Selection Mode\n" ++
  "**Template: " ++ stackChoice ++ "**\n\n" ++
  "## Composition\n\n" ++
  "| Layer | Selection |\n|-------|-----------|\n| Template | " ++
  stackChoice ++ " |\n\n" ++
  "*See stack_templates in orchestrator_spec.yml for full composition " ++
  "details.*\n\n" ++
  "## Rationale\n" ++
  (if reasoning == "" then "Stack approved by user." else reasoning) ++
  "\n\n" ++
  "## Approval Details\n" ++
  "- **Approved At**: " ++ timestamp ++ "\n" ++
  "- **Mode**: template\n\n" ++
  "## Next Steps\n" ++
  "This stack decision will guide dependency generation in the " ++
  "DEPENDENCIES phase.\n"

/-- Stack-rationale document content (approve-stack route source file),
parameterized by the request-time date. -/
def generateStackRationaleContent (stackChoice reasoning date : String) :
    String :=
  "---\n" ++
  "title: \"Stack Selection Rationale\"\n" ++
  "owner: \"architect\"\n" ++
  "version: \"1\"\n" ++
  "date: \"" ++ date ++ "\"\n" ++
  "status: \"approved\"\n" ++
  "---\n\n" ++
  "# Stack Selection Rationale\n\n" ++
  "## Summary\n" ++
  "- **Selection Mode**: template\n" ++
  "- **Chosen Stack**: " ++ stackChoice ++ "\n" ++
  "- **Decision Date**: " ++ date ++ "\n\n" ++
  "## Reasoning\n\n" ++
  (if reasoning == "" then "User approved the stack selection."
   else reasoning) ++
  "\n\n" ++
  "## Decision Factors\n\n" ++
  "The stack was selected based on:\n" ++
  "1. Project requirements from project-brief.md\n" ++
  "2. User persona needs from personas.md\n" ++
  "3. Technical constraints from constitution.md\n\n" ++
  "## Trade-offs Accepted\n\n" ++
  "*To be detailed based on the specific stack choice.*\n\n" ++
  "## Future Considerations\n\n" ++
  "- Monitor performance and scalability as the project grows\n" ++
  "- Re-evaluate stack if requirements change significantly\n" ++
  "- Consider migration paths documented in orchestrator_spec.yml\n"

/-- Stack approval route POST /projects/:slug/approve-stack (route source
file): validate the body with ApproveStackSchema (400 on failure, before
any write); 404 unless the project exists and belongs to the session user;
generate the decision and rationale documents; persist both through the
versioned saveArtifact; overwrite the metadata with stack_approved true and
the chosen stack. Returns the response, the updated metadata and the
updated artifact store. -/
def approveStackRoute (body : ApproveStackBody)
    (sessionUserId date timestamp : String)
    (metadata : Option ProjectMeta) (store : List Artifact) :
    ApiResponse × Option ProjectMeta × List Artifact :=
  if approveStackValid body then
    match metadata with
    | none => (⟨404, false, "Project not found"⟩, metadata, store)
    | some m =>
      if m.created_by_id == sessionUserId then
        let sc := (body.stack_choice.getD "").trim
        let rs := (body.reasoning.getD "").trim
        let dec := generateStackDecisionContent sc rs date timestamp
        let rat := generateStackRationaleContent sc rs date
        let store1 :=
          saveArtifact store "STACK_SELECTION" "stack-decision.md" dec
        let store2 :=
          saveArtifact store1 "STACK_SELECTION" "stack-rationale.md" rat
        (⟨200, true, ""⟩,
          some { m with stack_choice := some sc, stack_approved := true },
          store2)
      else (⟨404, false, "Project not found"⟩, metadata, store)
  else (⟨400, false, "Invalid input"⟩, metadata, store)

theorem maxVersion_append_other (store : List Artifact) (a : Artifact)
    (ph n : String) (h : (a.phase == ph && a.name == n) = false) :
    maxVersion (store ++ [a]) ph n = maxVersion store ph n := by
  simp only [maxVersion, List.filter_append]
  have : List.filter (fun x => x.phase == ph && x.name == n) [a] = [] := by
    simp [List.filter, h]
  rw [this, List.append_nil]

/-- C5: re-approving the stack of a project whose stack is already approved
returns 200, leaves stack_approved true, appends a fresh decision and
rationale document pair at the next version numbers, and every previously
stored artifact is still present in the store afterwards. -/
theorem stack_reapproval_appends (body : ApproveStackBody)
    (uid date timestamp : String) (m : ProjectMeta) (store : List Artifact)
    (hv : approveStackValid body = true)
    (hm : m.created_by_id = uid)
    (_ha : m.stack_approved = true) :
    (approveStackRoute body uid date timestamp (some m) store).1.status
        = 200 ∧
    (∃ m2, (approveStackRoute body uid date timestamp (some m) store).2.1
        = some m2 ∧ m2.stack_approved = true) ∧
    (∀ a ∈ store,
      a ∈ (approveStackRoute body uid date timestamp (some m) store).2.2) ∧
    (∃ c, Artifact.mk "STACK_SELECTION" "stack-decision.md"
        (maxVersion store "STACK_SELECTION" "stack-decision.md" + 1) c
        ∈ (approveStackRoute body uid date timestamp (some m) store).2.2) ∧
    (∃ c, Artifact.mk "STACK_SELECTION" "stack-rationale.md"
        (maxVersion store "STACK_SELECTION" "stack-rationale.md" + 1) c
        ∈ (approveStackRoute body uid date timestamp (some m) store).2.2)
    := by
  have hb : (m.created_by_id == uid) = true := by simp [hm]
  have hroute : approveStackRoute body uid date timestamp (some m) store =
      (⟨200, true, ""⟩,
        some { m with
          stack_choice := some ((body.stack_choice.getD "").trim),
          stack_approved := true },
        saveArtifact
          (saveArtifact store "STACK_SELECTION" "stack-decision.md"
            (generateStackDecisionContent ((body.stack_choice.getD "").trim)
              ((body.reasoning.getD "").trim) date timestamp))
          "STACK_SELECTION" "stack-rationale.md"
          (generateStackRationaleContent ((body.stack_choice.getD "").trim)
            ((body.reasoning.getD "").trim) date)) := by
    simp only [approveStackRoute, hv, if_true, hb]
  rw [hroute]
  refine ⟨rfl, ⟨_, rfl, rfl⟩, ?_, ?_, ?_⟩
  · intro a haa
    simp only [saveArtifact, List.mem_append]
    exact Or.inl (Or.inl haa)
  · refine ⟨generateStackDecisionContent ((body.stack_choice.getD "").trim)
      ((body.reasoning.getD "").trim) date timestamp, ?_⟩
    simp only [saveArtifact, List.mem_append]
    exact Or.inl (Or.inr (by simp))
  · refine ⟨generateStackRationaleContent ((body.stack_choice.getD "").trim)
      ((body.reasoning.getD "").trim) date, ?_⟩
    have hmv : maxVersion
        (store ++ [Artifact.mk "STACK_SELECTION" "stack-decision.md"
          (maxVersion store "STACK_SELECTION" "stack-decision.md" + 1)
          (generateStackDecisionContent ((body.stack_choice.getD "").trim)
            ((body.reasoning.getD "").trim) date timestamp)])
        "STACK_SELECTION" "stack-rationale.md"
        = maxVersion store "STACK_SELECTION" "stack-rationale.md" := by
      apply maxVersion_append_other
      simp
    simp only [saveArtifact, hmv, List.mem_append]
    exact Or.inr (by simp)

/-- Previously approved project metadata used by the re-approval witness. -/
def approvedMeta : ProjectMeta :=
  ⟨"test-slug", "Test Project", Phase.STACK_SELECTION,
    some "nextjs_fullstack", true, false, "user-1"⟩

/-- Artifact store holding the first decision/rationale pair, used by the
re-approval witness. -/
def priorPairStore : List Artifact :=
  [⟨"STACK_SELECTION", "stack-decision.md", 1, "first decision"⟩,
   ⟨"STACK_SELECTION", "stack-rationale.md", 1, "first rationale"⟩]

/-- Stack-approval body used by the re-approval witness. -/
def reapproveBody : ApproveStackBody :=
  ⟨some "nextjs_fullstack", some "still the best fit", none⟩

/-- Witness for C5: a concrete second approval on a project that already
holds an approved stack and a version-1 document pair. -/
theorem stack_reapproval_appends_witness :
    approveStackValid reapproveBody = true ∧
    approvedMeta.created_by_id = "user-1" ∧
    approvedMeta.stack_approved = true ∧
    ((approveStackRoute reapproveBody "user-1" "2025-01-01"
        "2025-01-01T00:00:00Z" (some approvedMeta)
        priorPairStore).1.status = 200 ∧
     (∃ m2, (approveStackRoute reapproveBody "user-1" "2025-01-01"
          "2025-01-01T00:00:00Z" (some approvedMeta) priorPairStore).2.1
          = some m2 ∧ m2.stack_approved = true) ∧
     (∀ a ∈ priorPairStore,
        a ∈ (approveStackRoute reapproveBody "user-1" "2025-01-01"
          "2025-01-01T00:00:00Z" (some approvedMeta) priorPairStore).2.2) ∧
     (∃ c, Artifact.mk "STACK_SELECTION" "stack-decision.md"
          (maxVersion priorPairStore "STACK_SELECTION" "stack-decision.md"
            + 1) c
          ∈ (approveStackRoute reapproveBody "user-1" "2025-01-01"
            "2025-01-01T00:00:00Z" (some approvedMeta)
            priorPairStore).2.2) ∧
     (∃ c, Artifact.mk "STACK_SELECTION" "stack-rationale.md"
          (maxVersion priorPairStore "STACK_SELECTION" "stack-rationale.md"
            + 1) c
          ∈ (approveStackRoute reapproveBody "user-1" "2025-01-01"
            "2025-01-01T00:00:00Z" (some approvedMeta)
            priorPairStore).2.2)) :=
  ⟨by decide, rfl, rfl,
    stack_reapproval_appends reapproveBody "user-1" "2025-01-01"
      "2025-01-01T00:00:00Z" approvedMeta priorPairStore (by decide) rfl
      rfl⟩

/-- Parsed PATCH body of the admin user-role endpoint; absent fields are
none. -/
structure PatchRoleBody where
  userId : Option String
  role : Option String
deriving DecidableEq, Repr

/-- Authenticated session user carried by the auth guard. -/
structure SessionUser where
  id : String
  role : String
deriving DecidableEq, Repr

/-- Session handed to the handler by withAdminAuth. -/
structure AuthSession where
  user : SessionUser
deriving DecidableEq, Repr

/-- Super-admin test of the auth guard; mirrors the role computation of the
check-admin route source file. -/
def isSuperAdmin (s : AuthSession) : Bool :=
  s.user.role == "super_admin"

/-- JavaScript falsiness of an optional string field: absent, null, or the
empty string. -/
def jsFalsy : Option String → Bool
  | none => true
  | some s => s == ""

/-- Database row of the users table (only the columns the handler reads). -/
structure UserRow where
  id : String
  role : String
deriving DecidableEq, Repr

/-- Admin user-role PATCH handler (admin users route source file): 400 when
userId or role is falsy; 400 on a role outside user, admin and super_admin;
403 when a non-super-admin assigns the super_admin role; 400 when a
super_admin demotes themselves; 404 on an unknown target; 403 when a
non-super-admin modifies a super_admin user; otherwise the role column is
updated. Returns the response, whether an update ran, and the resulting
table. -/
def patchUserRole (body : PatchRoleBody) (session : AuthSession)
    (tbl : List UserRow) : ApiResponse × Bool × List UserRow :=
  if jsFalsy body.userId || jsFalsy body.role then
    (⟨400, false, "User ID and role are required"⟩, false, tbl)
  else
    let userId := body.userId.getD ""
    let role := body.role.getD ""
    if !(decide (role ∈ ["user", "admin", "super_admin"])) then
      (⟨400, false, "Invalid role"⟩, false, tbl)
    else if role == "super_admin" && !(isSuperAdmin session) then
      (⟨403, false, "Only super admins can assign super admin role"⟩,
        false, tbl)
    else if userId == session.user.id
        && session.user.role == "super_admin"
        && role != "super_admin" then
      (⟨400, false, "Cannot demote yourself from super admin"⟩, false, tbl)
    else
      match tbl.find? (fun u => u.id == userId) with
      | none => (⟨404, false, "User not found"⟩, false, tbl)
      | some target =>
        if target.role == "super_admin" && !(isSuperAdmin session) then
          (⟨403, false, "Cannot modify super admin users"⟩, false, tbl)
        else
          (⟨200, true, ""⟩, true,
            tbl.map (fun u =>
              if u.id == userId then { u with role := role } else u))

/-- C9 counterexample: an admin (not super_admin) PATCH that targets a user
whose current role is super_admin but carries an invalid role value is
answered with 400 (invalid role), not 403 as the claim states for every
such attempt; no update is performed either way. -/
theorem admin_patch_invalid_role_counterexample :
    isSuperAdmin ⟨⟨"admin-1", "admin"⟩⟩ = false ∧
    (List.find? (fun u => u.id == "u2")
        [UserRow.mk "u2" "super_admin"]).map UserRow.role
      = some "super_admin" ∧
    (patchUserRole ⟨some "u2", some "moderator"⟩ ⟨⟨"admin-1", "admin"⟩⟩
        [UserRow.mk "u2" "super_admin"]).1.status = 400 ∧
    (patchUserRole ⟨some "u2", some "moderator"⟩ ⟨⟨"admin-1", "admin"⟩⟩
        [UserRow.mk "u2" "super_admin"]).2.1 = false := by
  refine ⟨rfl, rfl, ?_, ?_⟩ <;> decide

/-- C9 (amended): with both fields present, a super_admin targeting their
own id with any role other than super_admin gets 400 and no update; a
requester who is not a super_admin gets 403 and no update when assigning
the super_admin role with a well-formed request, or when modifying a user
whose current role is super_admin with a role from the allowed set; a
request carrying a role outside the allowed set is instead rejected with
400, again without any update. -/
theorem admin_patch_role_guards (body : PatchRoleBody)
    (session : AuthSession) (tbl : List UserRow) (uid role : String)
    (hu : body.userId = some uid) (hr : body.role = some role) :
    (session.user.role = "super_admin" → uid = session.user.id →
      role ≠ "super_admin" →
      (patchUserRole body session tbl).1.status = 400 ∧
      (patchUserRole body session tbl).2.1 = false ∧
      (patchUserRole body session tbl).2.2 = tbl) ∧
    (session.user.role ≠ "super_admin" → uid ≠ "" →
      role = "super_admin" →
      (patchUserRole body session tbl).1.status = 403 ∧
      (patchUserRole body session tbl).2.1 = false ∧
      (patchUserRole body session tbl).2.2 = tbl) ∧
    (session.user.role ≠ "super_admin" → uid ≠ "" →
      role ∈ ["user", "admin", "super_admin"] →
      (∀ t, tbl.find? (fun u => u.id == uid) = some t →
        t.role = "super_admin" →
        (patchUserRole body session tbl).1.status = 403 ∧
        (patchUserRole body session tbl).2.1 = false ∧
        (patchUserRole body session tbl).2.2 = tbl)) ∧
    (role ∉ ["user", "admin", "super_admin"] → role ≠ "" →
      (patchUserRole body session tbl).1.status = 400 ∧
      (patchUserRole body session tbl).2.1 = false ∧
      (patchUserRole body session tbl).2.2 = tbl) := by
  refine ⟨?_, ?_, ?_, ?_⟩
  · intro hs huid hrole
    by_cases h1 : (jsFalsy body.userId || jsFalsy body.role) = true
    · simp [patchUserRole, h1]
    · rw [hu, hr] at h1
      simp only [Bool.or_eq_true, not_or, Bool.not_eq_true] at h1
      obtain ⟨hfu, hfr⟩ := h1
      have hsa : isSuperAdmin session = true := by simp [isSuperAdmin, hs]
      have hid : (uid == session.user.id) = true := by simp [huid]
      have hsb : (session.user.role == "super_admin") = true := by simp [hs]
      by_cases h2 : role ∈ ["user", "admin", "super_admin"]
      · simp [patchUserRole, hu, hr, hfu, hfr, h2, hrole, hsa, hid, hsb]
      · simp [patchUserRole, hu, hr, hfu, hfr, h2]
  · intro hs hue hrole
    subst hrole
    have hfu : jsFalsy (some uid) = false := by simp [jsFalsy, hue]
    have hsa : isSuperAdmin session = false := by simp [isSuperAdmin, hs]
    simp [patchUserRole, hu, hr, hfu, hue, jsFalsy, hsa]
  · intro hs hue hrole t hfind htrole
    have hrole2 := hrole
    simp only [List.mem_cons, List.not_mem_nil, or_false] at hrole2
    have hre : role ≠ "" := by
      rcases hrole2 with h | h | h <;> subst h <;> decide
    have hfu : jsFalsy (some uid) = false := by simp [jsFalsy, hue]
    have hfr : jsFalsy (some role) = false := by simp [jsFalsy, hre]
    have hsa : isSuperAdmin session = false := by simp [isSuperAdmin, hs]
    have hsb : (session.user.role == "super_admin") = false := by simp [hs]
    have htb : (t.role == "super_admin") = true := by simp [htrole]
    by_cases hrb : role = "super_admin"
    · simp [patchUserRole, hu, hr, hfu, hfr, hue, jsFalsy, hrole, hrb, hsa]
    · simp [patchUserRole, hu, hr, hfu, hfr, hrole, hrb, hsa, hsb, hfind,
        htb]
  · intro hrole hre
    by_cases h1 : (jsFalsy body.userId || jsFalsy body.role) = true
    · simp [patchUserRole, h1]
    · rw [hu, hr] at h1
      simp only [Bool.or_eq_true, not_or, Bool.not_eq_true] at h1
      obtain ⟨hfu, hfr⟩ := h1
      simp [patchUserRole, hu, hr, hfu, hfr, hrole]

/-- Witness for the amended C9 theorem: a super_admin self-demotion gets
400, and an admin PATCH that assigns the admin role to a super_admin user
gets 403; neither updates the table. -/
theorem admin_patch_role_guards_witness :
    ((PatchRoleBody.mk (some "sa-1") (some "admin")).userId = some "sa-1" ∧
      (PatchRoleBody.mk (some "sa-1") (some "admin")).role = some "admin" ∧
      (patchUserRole ⟨some "sa-1", some "admin"⟩ ⟨⟨"sa-1", "super_admin"⟩⟩
          [UserRow.mk "sa-1" "super_admin"]).1.status = 400 ∧
      (patchUserRole ⟨some "sa-1", some "admin"⟩ ⟨⟨"sa-1", "super_admin"⟩⟩
          [UserRow.mk "sa-1" "super_admin"]).2.1 = false ∧
      (patchUserRole ⟨some "sa-1", some "admin"⟩ ⟨⟨"sa-1", "super_admin"⟩⟩
          [UserRow.mk "sa-1" "super_admin"]).2.2
        = [UserRow.mk "sa-1" "super_admin"]) ∧
    ((patchUserRole ⟨some "u2", some "admin"⟩ ⟨⟨"admin-1", "admin"⟩⟩
          [UserRow.mk "u2" "super_admin"]).1.status = 403 ∧
      (patchUserRole ⟨some "u2", some "admin"⟩ ⟨⟨"admin-1", "admin"⟩⟩
          [UserRow.mk "u2" "super_admin"]).2.1 = false ∧
      (patchUserRole ⟨some "u2", some "admin"⟩ ⟨⟨"admin-1", "admin"⟩⟩
          [UserRow.mk "u2" "super_admin"]).2.2
        = [UserRow.mk "u2" "super_admin"]) :=
  ⟨⟨rfl, rfl,
      (admin_patch_role_guards ⟨some "sa-1", some "admin"⟩
          ⟨⟨"sa-1", "super_admin"⟩⟩ [UserRow.mk "sa-1" "super_admin"]
          "sa-1" "admin" rfl rfl).1 rfl rfl (by decide)⟩,
    (admin_patch_role_guards ⟨some "u2", some "admin"⟩
        ⟨⟨"admin-1", "admin"⟩⟩ [UserRow.mk "u2" "super_admin"]
        "u2" "admin" rfl rfl).2.2.1 (by decide) (by decide) (by decide)
      (UserRow.mk "u2" "super_admin") rfl rfl⟩

/-- Response header map: ordered name-value pairs where setting a header
replaces any existing entry for that name. -/
def setHeader (hs : List (String × String)) (k v : String) :
    List (String × String) :=
  hs.filter (fun p => p.1 != k) ++ [(k, v)]

/-- Read a header by name. -/
def getHeader (hs : List (String × String)) (k : String) : Option String :=
  (hs.find? (fun p => p.1 == k)).map (fun p => p.2)

/-- Content-Security-Policy value assembled by the middleware source file
(directive list joined with a semicolon and space). -/
def cspHeader : String :=
  String.intercalate "; "
    ["default-src \x27self\x27",
     "script-src \x27self\x27 \x27unsafe-inline\x27 \x27unsafe-eval\x27",
     "style-src \x27self\x27 \x27unsafe-inline\x27",
     "img-src \x27self\x27 data: https:",
     "font-src \x27self\x27 data:",
     "connect-src \x27self\x27 https://generativelanguage.googleapis.com",
     "frame-ancestors \x27none\x27",
     "form-action \x27self\x27",
     "base-uri \x27self\x27",
     "object-src \x27none\x27",
     "media-src \x27self\x27",
     "manifest-src \x27self\x27",
     "worker-src \x27self\x27",
     "upgrade-insecure-requests"]

/-- Permissions-Policy value assembled by the middleware source file
(feature list joined with a comma and space). -/
def permissionsPolicyHeader : String :=
  String.intercalate ", "
    ["geolocation=()", "microphone=()", "camera=()", "payment=()",
     "usb=()", "magnetometer=()", "gyroscope=()", "accelerometer=()"]

/-- Kind of middleware response: pass-through or redirect. -/
inductive RespKind where
  | next
  | redirect (location : String)
deriving DecidableEq, Repr

/-- Middleware response: kind plus headers. -/
structure MwResponse where
  kind : RespKind
  headers : List (String × String)
deriving DecidableEq, Repr

/-- Security-header decoration of the middleware source file: sets the CSP,
X-Frame-Options, X-Content-Type-Options, X-XSS-Protection,
Referrer-Policy, Permissions-Policy and the three Cross-Origin policies on
every response, and adds Strict-Transport-Security only when NODE_ENV is
production. -/
def securityHeaderList (nodeEnv : String) (hs : List (String × String)) :
    List (String × String) :=
  let h1 := setHeader hs "Content-Security-Policy" cspHeader
  let h2 := setHeader h1 "X-Frame-Options" "DENY"
  let h3 := setHeader h2 "X-Content-Type-Options" "nosniff"
  let h4 := setHeader h3 "X-XSS-Protection" "1; mode=block"
  let h5 := setHeader h4 "Referrer-Policy" "strict-origin-when-cross-origin"
  let h6 := setHeader h5 "Permissions-Policy" permissionsPolicyHeader
  let h7 := setHeader h6 "Cross-Origin-Embedder-Policy" "require-corp"
  let h8 := setHeader h7 "Cross-Origin-Opener-Policy" "same-origin"
  let h9 := setHeader h8 "Cross-Origin-Resource-Policy" "same-origin"
  if nodeEnv == "production" then
    setHeader h9 "Strict-Transport-Security"
      "max-age=31536000; includeSubDomains; preload"
  else h9

/-- Response decoration of addSecurityHeaders in the middleware source
file. -/
def addSecurityHeaders (nodeEnv : String) (r : MwResponse) : MwResponse :=
  { r with headers := securityHeaderList nodeEnv r.headers }

/-- Public routes allowed without a session (middleware source file). -/
def publicRoutes : List String := ["/", "/sign-in", "/sign-up"]

/-- Auth middleware (middleware source file): a public path passes through;
without a session the request is redirected to the sign-in page with the
original path as callbackUrl; with a session it passes through. Every
branch decorates a fresh response with the security headers. -/
def authMiddleware (nodeEnv pathname origin : String)
    (session : Option SessionUser) : MwResponse :=
  if pathname ∈ publicRoutes then
    addSecurityHeaders nodeEnv ⟨.next, []⟩
  else
    match session with
    | none =>
      addSecurityHeaders nodeEnv
        ⟨.redirect (origin ++ "/sign-in?callbackUrl=" ++ pathname), []⟩
    | some _ => addSecurityHeaders nodeEnv ⟨.next, []⟩

/-- Full security-header set carried by a response, with the HSTS header
present exactly in production. -/
def fullSecurityHeaders (nodeEnv : String) (r : MwResponse) : Prop :=
  getHeader r.headers "Content-Security-Policy" = some cspHeader ∧
  getHeader r.headers "X-Frame-Options" = some "DENY" ∧
  getHeader r.headers "X-Content-Type-Options" = some "nosniff" ∧
  getHeader r.headers "Referrer-Policy"
    = some "strict-origin-when-cross-origin" ∧
  getHeader r.headers "Permissions-Policy" = some permissionsPolicyHeader ∧
  getHeader r.headers "Cross-Origin-Embedder-Policy" = some "require-corp" ∧
  getHeader r.headers "Cross-Origin-Opener-Policy" = some "same-origin" ∧
  getHeader r.headers "Cross-Origin-Resource-Policy" = some "same-origin" ∧
  (getHeader r.headers "Strict-Transport-Security"
      = some "max-age=31536000; includeSubDomains; preload"
    ↔ nodeEnv = "production")

set_option maxRecDepth 8192 in
theorem securityHeaderList_fresh (nodeEnv : String) :
    getHeader (securityHeaderList nodeEnv []) "Content-Security-Policy"
      = some cspHeader ∧
    getHeader (securityHeaderList nodeEnv []) "X-Frame-Options"
      = some "DENY" ∧
    getHeader (securityHeaderList nodeEnv []) "X-Content-Type-Options"
      = some "nosniff" ∧
    getHeader (securityHeaderList nodeEnv []) "Referrer-Policy"
      = some "strict-origin-when-cross-origin" ∧
    getHeader (securityHeaderList nodeEnv []) "Permissions-Policy"
      = some permissionsPolicyHeader ∧
    getHeader (securityHeaderList nodeEnv []) "Cross-Origin-Embedder-Policy"
      = some "require-corp" ∧
    getHeader (securityHeaderList nodeEnv []) "Cross-Origin-Opener-Policy"
      = some "same-origin" ∧
    getHeader (securityHeaderList nodeEnv []) "Cross-Origin-Resource-Policy"
      = some "same-origin" ∧
    (getHeader (securityHeaderList nodeEnv []) "Strict-Transport-Security"
        = some "max-age=31536000; includeSubDomains; preload"
      ↔ nodeEnv = "production") := by
  by_cases h : nodeEnv = "production"
  · subst h
    refine ⟨by decide, by decide, by decide, by decide, by decide,
      by decide, by decide, by decide, ?_⟩
    exact ⟨fun _ => rfl, fun _ => by decide⟩
  · have hb : (nodeEnv == "production") = false := by simp [h]
    simp only [securityHeaderList, hb, Bool.false_eq_true, if_false]
    refine ⟨by decide, by decide, by decide, by decide, by decide,
      by decide, by decide, by decide, ?_⟩
    constructor
    · intro hx
      exact absurd hx (by decide)
    · intro hx
      exact absurd hx h

theorem addSecurityHeaders_fresh (nodeEnv : String) (k : RespKind) :
    fullSecurityHeaders nodeEnv (addSecurityHeaders nodeEnv ⟨k, []⟩) := by
  have h := securityHeaderList_fresh nodeEnv
  simpa [fullSecurityHeaders, addSecurityHeaders] using h

/-- C10: every response produced by the auth middleware, for a public
route, for an unauthenticated redirect and for an authenticated
pass-through alike, carries the full security-header set, and the
Strict-Transport-Security header is present exactly when NODE_ENV is
production. -/
theorem middleware_security_headers (nodeEnv pathname origin : String)
    (session : Option SessionUser) :
    fullSecurityHeaders nodeEnv
      (authMiddleware nodeEnv pathname origin session) := by
  unfold authMiddleware
  by_cases hp : pathname ∈ publicRoutes
  · simp only [hp, if_true]
    exact addSecurityHeaders_fresh nodeEnv RespKind.next
  · simp only [hp, if_false]
    cases session with
    | none => exact addSecurityHeaders_fresh nodeEnv _
    | some u => exact addSecurityHeaders_fresh nodeEnv RespKind.next

end SpecDriven
